import Mathlib

/-!
Verification of `tap_rest_api_msdk/auth.py`.

This file gives a shallow embedding of the authentication module: the
configuration surface, Python truthiness, the `AWSConnectClient` class, the two
OAuth 1.0 authenticator classes, and the module-level functions
`select_authenticator` and `get_authenticator`.  Python exceptions are embedded
as `Except PyError`; mutation of `self` is embedded as explicit state passing on
`SelfState`; the process environment and the external (boto3) profile lookup
are explicit parameters.
-/

set_option autoImplicit false

namespace TapRestApiMsdk

/-- Python exceptions raised (directly or by the runtime) in `auth.py`. -/
inductive PyError where
  | valueError (msg : String)
  | typeError (msg : String)
  | unboundLocalError (name : String)
  | nameError (name : String)
  | attributeError (msg : String)
deriving Repr, DecidableEq

/-- Python truthiness of an optional string: `None` and the empty string are
falsy, every other string is truthy. -/
def truthy : Option String → Bool
  | none => false
  | some s => s ≠ ""

/-- Embedding of the Python expression `a or b` on optional strings, as used in
`config.get(key) or os.environ.get(KEY)` in `AWSConnectClient._create_aws_client`. -/
def pyOr (a b : Option String) : Option String :=
  if truthy a then a else b

/-- The AWS connection configuration dict (`aws_credentials` in the tap config).
Every key is optional; `none` models an absent key. -/
structure AwsConfig where
  aws_profile : Option String := none
  aws_access_key_id : Option String := none
  aws_secret_access_key : Option String := none
  aws_session_token : Option String := none
  aws_region : Option String := none
  aws_service : Option String := none
  create_signed_credentials : Option Bool := none
deriving Repr, DecidableEq

/-- The process environment variables consulted by `_create_aws_client`. -/
structure AwsEnv where
  AWS_PROFILE : Option String := none
  AWS_ACCESS_KEY_ID : Option String := none
  AWS_SECRET_ACCESS_KEY : Option String := none
  AWS_SESSION_TOKEN : Option String := none
  AWS_REGION : Option String := none
  AWS_SERVICE : Option String := none
deriving Repr, DecidableEq

/-- The recognized key/value configuration surface (`AuthConfig`).  Each
recognized key is an optional field; `none` models an absent key. -/
structure AuthConfig where
  auth_method : Option String := none
  api_keys : Option (List (String × String)) := none
  username : Option String := none
  password : Option String := none
  bearer_token : Option String := none
  access_token_url : Option String := none
  scope : Option String := none
  oauth_expiration_secs : Option Nat := none
  headers : Option (List (String × String)) := none
  consumer_key : Option String := none
  consumer_secret : Option String := none
  access_token : Option String := none
  token_secret : Option String := none
  aws_credentials : Option AwsConfig := none
deriving Repr, DecidableEq

/-- The boto3 session built by `_create_aws_client`: either from an explicit
access-key/secret pair (with region and session token) or from a named profile. -/
inductive AwsSession where
  | explicitKeys (aws_access_key_id aws_secret_access_key aws_region aws_session_token : Option String)
  | profile (profile_name : String)
deriving Repr, DecidableEq

/-- A resolved AWS credential bundle (boto3 `Credentials`). -/
structure AwsCredentials where
  access_key : String
  secret_key : String
  token : Option String
deriving Repr, DecidableEq

/-- The external profile store consulted by boto3 when a session is built from a
named profile (region and credentials of the profile). -/
structure ProfileOracle where
  region_name : String → Option String
  credentials : String → Option AwsCredentials

/-- The data captured by a constructed `AWS4Auth` signer
(`AWS4Auth(access_key, secret_key, region, service, aws_session=token)`). -/
structure AWS4AuthData where
  access_key : String
  secret_key : String
  region : Option String
  service : Option String
  session_token : Option String
deriving Repr, DecidableEq

/-- Embedding of `session.region_name`: for an explicit-keys session, the region that was
passed in; for a profile session, the region of the profile. -/
def sessionRegionName (s : AwsSession) (o : ProfileOracle) : Option String :=
  match s with
  | .explicitKeys _ _ region _ => region
  | .profile p => o.region_name p

/-- Embedding of `session.get_credentials()`: for an explicit-keys session, the keys that
were passed in; for a profile session, the credentials of the profile. -/
def sessionGetCredentials (s : AwsSession) (o : ProfileOracle) : Option AwsCredentials :=
  match s with
  | .explicitKeys kid secret _ token =>
      some { access_key := kid.getD "", secret_key := secret.getD "", token := token }
  | .profile p => o.credentials p

/-- The fields of an `AWSConnectClient` instance after `__init__` finishes. -/
structure AWSConnectClient where
  connection_config : Option AwsConfig
  create_signed_credentials : Bool
  aws_auth : Option AWS4AuthData
  region : Option String
  credentials : Option AwsCredentials
  aws_service : Option String
  aws_session : Option AwsSession
deriving Repr, DecidableEq

/-- Embedding of `AWSConnectClient.__init__`: runs `_create_aws_client` and then
`_store_aws4auth_credentials`.  A `None` connection config makes
`config.get(...)` raise `AttributeError`; otherwise each parameter is resolved
as `config.get(key) or os.environ.get(KEY)`; an explicit key pair builds an
explicit-keys session, else a truthy profile builds a profile session, else the
session is `None`; region and credentials are read from the session when one
exists; the signer is stored only when `create_signed_credentials` and the
credentials are truthy. -/
def awsConnectClientInit (connection_config : Option AwsConfig)
    (create_signed_credentials : Bool) (env : AwsEnv) (o : ProfileOracle) :
    Except PyError AWSConnectClient :=
  match connection_config with
  | none => Except.error (PyError.attributeError "NoneType object has no attribute get")
  | some cfg =>
    let aws_profile := pyOr cfg.aws_profile env.AWS_PROFILE
    let aws_access_key_id := pyOr cfg.aws_access_key_id env.AWS_ACCESS_KEY_ID
    let aws_secret_access_key := pyOr cfg.aws_secret_access_key env.AWS_SECRET_ACCESS_KEY
    let aws_session_token := pyOr cfg.aws_session_token env.AWS_SESSION_TOKEN
    let aws_region := pyOr cfg.aws_region env.AWS_REGION
    let aws_service := pyOr cfg.aws_service env.AWS_SERVICE
    let create_signed :=
      if !(cfg.create_signed_credentials.getD true) then false else create_signed_credentials
    let aws_session : Option AwsSession :=
      if truthy aws_access_key_id && truthy aws_secret_access_key then
        some (AwsSession.explicitKeys aws_access_key_id aws_secret_access_key
          aws_region aws_session_token)
      else if truthy aws_profile then
        some (AwsSession.profile (aws_profile.getD ""))
      else
        none
    let region : Option String :=
      match aws_session with
      | some sess => sessionRegionName sess o
      | none => none
    let credentials : Option AwsCredentials :=
      match aws_session with
      | some sess => sessionGetCredentials sess o
      | none => none
    let aws_auth : Option AWS4AuthData :=
      match credentials with
      | some c =>
          if create_signed then
            some { access_key := c.access_key, secret_key := c.secret_key,
                   region := region, service := aws_service, session_token := c.token }
          else none
      | none => none
    Except.ok { connection_config := connection_config,
                create_signed_credentials := create_signed,
                aws_auth := aws_auth, region := region, credentials := credentials,
                aws_service := aws_service, aws_session := aws_session }

/-- Embedding of `AWSConnectClient.get_awsauth`: returns the stored signer (possibly `None`). -/
def AWSConnectClient.get_awsauth (c : AWSConnectClient) : Option AWS4AuthData :=
  c.aws_auth

/-- The data captured by a constructed `requests_oauthlib.OAuth1` signer
(`OAuth1(consumer_key, consumer_secret, access_token, token_secret)`). -/
structure OAuth1Sig where
  client_key : Option String
  client_secret : Option String
  resource_owner_key : Option String
  resource_owner_secret : Option String
deriving Repr, DecidableEq

/-- A `requests.PreparedRequest`, reduced to the one field this module touches:
the attached `auth` callable. -/
structure PreparedRequest where
  auth : Option OAuth1Sig
deriving Repr, DecidableEq

/-- The fields of a `ConfigurableOAuthAuthenticator` instance (the OAuth 1.0
variant defined at the top of `auth.py`) after `__init__` finishes. -/
structure ConfigurableOAuthAuthenticator where
  consumer_key : Option String
  consumer_secret : Option String
  access_token : Option String
  token_secret : Option String
  auth : OAuth1Sig
deriving Repr, DecidableEq

/-- Embedding of `ConfigurableOAuthAuthenticator.__init__(config)`: reads the four OAuth 1.0
fields from the config; if `not all([...])` (any of them `None` or empty) it
raises `ValueError` before the `OAuth1` signer is built; otherwise it stores the
fields and the signer. -/
def ConfigurableOAuthAuthenticator.init (config : AuthConfig) :
    Except PyError ConfigurableOAuthAuthenticator :=
  let ck := config.consumer_key
  let cs := config.consumer_secret
  let atk := config.access_token
  let ts := config.token_secret
  if !(truthy ck && truthy cs && truthy atk && truthy ts) then
    Except.error (PyError.valueError "As credenciais OAuth 1.0 estão incompletas.")
  else
    Except.ok { consumer_key := ck, consumer_secret := cs, access_token := atk,
                token_secret := ts,
                auth := { client_key := ck, client_secret := cs,
                          resource_owner_key := atk, resource_owner_secret := ts } }

/-- Embedding of `ConfigurableOAuthAuthenticator.authenticate_request`: attaches the stored
`OAuth1` signer to the request and returns it; it performs no validation. -/
def ConfigurableOAuthAuthenticator.authenticate_request
    (a : ConfigurableOAuthAuthenticator) (r : PreparedRequest) : PreparedRequest :=
  { r with auth := some a.auth }

/-- The fields of an `OAuth1Authenticator` instance after `__init__` finishes. -/
structure OAuth1Authenticator where
  consumer_key : Option String
  consumer_secret : Option String
  access_token : Option String
  token_secret : Option String
  auth : OAuth1Sig
deriving Repr, DecidableEq

/-- Embedding of `OAuth1Authenticator.__init__(config)`: same validation as
`ConfigurableOAuthAuthenticator.__init__`, with its own error message. -/
def OAuth1Authenticator.init (config : AuthConfig) :
    Except PyError OAuth1Authenticator :=
  let ck := config.consumer_key
  let cs := config.consumer_secret
  let atk := config.access_token
  let ts := config.token_secret
  if !(truthy ck && truthy cs && truthy atk && truthy ts) then
    Except.error
      (PyError.valueError "Todos os campos de autenticação OAuth 1.0 são obrigatórios.")
  else
    Except.ok { consumer_key := ck, consumer_secret := cs, access_token := atk,
                token_secret := ts,
                auth := { client_key := ck, client_secret := cs,
                          resource_owner_key := atk, resource_owner_secret := ts } }

/-- Embedding of `OAuth1Authenticator.authenticate_request`: attaches the stored `OAuth1`
signer to the request and returns it; it performs no validation. -/
def OAuth1Authenticator.authenticate_request
    (a : OAuth1Authenticator) (r : PreparedRequest) : PreparedRequest :=
  { r with auth := some a.auth }

/-- The authenticator object held (or returned) by the dispatcher: one variant
per constructible SDK authenticator, plus the default `APIAuthenticatorBase`
(`base`) and a constructed `AWS4Auth` signer (`aws4`, what the `aws` branch of
`select_authenticator` returns). -/
inductive Authenticator where
  | apiKey (key value : String)
  | basic (username password : String)
  | bearer (token : String)
  | aws4 (a : AWS4AuthData)
  | base
deriving Repr, DecidableEq

/-- The parameter names accepted by `ConfigurableOAuthAuthenticator.__init__`
besides `self`: the class defined in this file takes a single `config` dict. -/
def ConfigurableOAuthAuthenticator.initParams : List String := ["config"]

/-- The keyword-argument names passed at the `oauth` call site inside
`select_authenticator`. -/
def select_oauth_call_kwargs : List String :=
  ["stream", "auth_endpoint", "oauth_scopes", "default_expiration", "oauth_headers"]

/-- Python keyword-call binding: a keyword argument whose name is not among the
callee parameters raises `TypeError`; otherwise a parameter left without a
binding raises `TypeError`. Returns the error, if any. -/
def kwargBindError (params kwargs : List String) : Option PyError :=
  match kwargs.find? (fun k => !(params.contains k)) with
  | some bad =>
      some (PyError.typeError ("__init__() got an unexpected keyword argument " ++ bad))
  | none =>
      match params.find? (fun p => !(kwargs.contains p)) with
      | some missing =>
          some (PyError.typeError ("__init__() missing required argument " ++ missing))
      | none => none

/-- The `TypeError` raised by the `oauth` branch of `select_authenticator`: the
call passes the keywords `stream`, `auth_endpoint`, `oauth_scopes`,
`default_expiration`, `oauth_headers`, but `ConfigurableOAuthAuthenticator.__init__`
accepts only `config`, so Python rejects the first unexpected keyword before the
constructor body runs. -/
def oauthCallError : PyError :=
  (kwargBindError ConfigurableOAuthAuthenticator.initParams select_oauth_call_kwargs).get
    (by decide)

/-- The `for k, v in api_keys.items(): key = k; value = v` loop of the
`api_key` branch: each iteration rebinds `key`/`value`; the accumulator is the
current binding (`none` = still unbound). -/
def loopAssign : List (String × String) → Option (String × String) → Option (String × String)
  | [], kv => kv
  | p :: rest, _ => loopAssign rest (some p)

/-- The effect of one `select_authenticator` call: the final value of
`self.http_auth` (assigned `None` on entry and possibly reassigned by the `aws`
branch), the assignment to `self.aws_connection` if one happened, the messages
sent to `self.logger.error`, and the returned value or raised exception.  The
return value is an `Option` because the `aws` branch can return `None` and the
`no_auth` branch falls off the end of the function. -/
structure SelectOutcome where
  http_auth : Option Authenticator
  aws_conn : Option AWSConnectClient
  log : List String
  result : Except PyError (Option Authenticator)

/-- The body of `select_authenticator` after `my_config` has been resolved
(source lines 236-295): reads `auth_method` (default `""`) and `api_keys`
(default `""`), sets `self.http_auth = None`, then dispatches on `auth_method`.
The `oauth` branch raises `oauthCallError` (see there); the trailing
`elif auth_method != "no_auth"` logs and raises `ValueError` for every other
value, including the empty string. -/
def select_core (mc : AuthConfig) (env : AwsEnv) (o : ProfileOracle) : SelectOutcome :=
  let auth_method := mc.auth_method.getD ""
  let api_keys := mc.api_keys
  if auth_method = "api_key" then
    let kv : Option (String × String) :=
      match api_keys with
      | some ks => if ks = [] then none else loopAssign ks none
      | none => none
    match kv with
    | some (k, v) =>
        { http_auth := none, aws_conn := none, log := [],
          result := Except.ok (some (Authenticator.apiKey k v)) }
    | none =>
        { http_auth := none, aws_conn := none, log := [],
          result := Except.error (PyError.unboundLocalError "key") }
  else if auth_method = "basic" then
    { http_auth := none, aws_conn := none, log := [],
      result := Except.ok (some (Authenticator.basic (mc.username.getD "")
        (mc.password.getD ""))) }
  else if auth_method = "oauth" then
    { http_auth := none, aws_conn := none, log := [],
      result := Except.error oauthCallError }
  else if auth_method = "bearer_token" then
    { http_auth := none, aws_conn := none, log := [],
      result := Except.ok (some (Authenticator.bearer (mc.bearer_token.getD ""))) }
  else if auth_method = "aws" then
    match awsConnectClientInit mc.aws_credentials true env o with
    | Except.error e =>
        { http_auth := none, aws_conn := none, log := [], result := Except.error e }
    | Except.ok client =>
        let ha := client.aws_auth.map Authenticator.aws4
        { http_auth := ha, aws_conn := some client, log := [], result := Except.ok ha }
  else if auth_method = "no_auth" then
    { http_auth := none, aws_conn := none, log := [], result := Except.ok none }
  else
    let msg := "Unknown authentication method " ++ auth_method ++
      ". Use api_key, basic, oauth, bearer_token, or aws."
    { http_auth := none, aws_conn := none, log := [msg],
      result := Except.error (PyError.valueError msg) }

/-- The mutable attributes of the stream/tap object (`self`) that this module
reads or writes.  `config` is the tap-level config, `_config` the stream-level
config; `none` models a falsy (absent or empty) config object. -/
structure SelfState where
  config : Option AuthConfig
  _config : Option AuthConfig
  _authenticator : Option Authenticator
  http_auth : Option Authenticator
  aws_connection : Option AWSConnectClient

/-- The `my_config` resolution shared by `select_authenticator` and
`get_authenticator`: `if self.config: ... elif self._config: ...`;
`none` means `my_config` stays unbound (both objects falsy). -/
def resolveMyConfig (s : SelfState) : Option AuthConfig :=
  match s.config with
  | some c => some c
  | none =>
      match s._config with
      | some c => some c
      | none => none

/-- Merge of an optional assignment to `self.aws_connection` with its previous
value: keep the old value when no assignment happened. -/
def mergeConn (old new : Option AWSConnectClient) : Option AWSConnectClient :=
  match new with
  | some c => some c
  | none => old

/-- Embedding of `select_authenticator(self)`: resolves `my_config` (an unbound `my_config`
raises `NameError` at its first use), runs the dispatch body, and applies its
state effects to `self`. -/
def select_authenticator (s : SelfState) (env : AwsEnv) (o : ProfileOracle) :
    SelfState × List String × Except PyError (Option Authenticator) :=
  match resolveMyConfig s with
  | none => (s, [], Except.error (PyError.nameError "my_config"))
  | some mc =>
    let out := select_core mc env o
    ({ s with http_auth := out.http_auth,
              aws_connection := mergeConn s.aws_connection out.aws_conn },
     out.log, out.result)

/-- The effect of one `get_authenticator` call: final `self._authenticator`,
final `self.http_auth`, the assignment to `self.aws_connection` if one
happened, the log, and the returned value or raised exception.  The function
body has no `return` statement, so a normal exit returns `None` (`ok none`). -/
structure GetOutcome where
  _authenticator : Option Authenticator
  http_auth : Option Authenticator
  aws_conn : Option AWSConnectClient
  log : List String
  result : Except PyError (Option Authenticator)

/-- The tail of `get_authenticator` (source lines 328-330): if `auth_method`
is `"aws"`, `self.http_auth = self._authenticator`; then the function ends,
returning `None`. -/
def finishGet (mc : AuthConfig) (auth1 ha : Option Authenticator)
    (ac : Option AWSConnectClient) (log : List String) : GetOutcome :=
  if mc.auth_method = some "aws" then
    { _authenticator := auth1, http_auth := auth1, aws_conn := ac, log := log,
      result := Except.ok none }
  else
    { _authenticator := auth1, http_auth := ha, aws_conn := ac, log := log,
      result := Except.ok none }

/-- The oauth-refresh step of `get_authenticator` (source lines 324-327): when
`auth_method == "oauth"`, call `self._authenticator.is_token_valid()` (the
method comes from the external SDK class of the cached instance, embedded as
the oracle `itv`); when it is false, `self._authenticator =
select_authenticator(self)` — a raise inside that call propagates and leaves
`self._authenticator` unchanged. -/
def get_core_post (mc : AuthConfig) (auth1 ha : Option Authenticator)
    (ac : Option AWSConnectClient) (log1 : List String) (env : AwsEnv)
    (o : ProfileOracle) (itv : Authenticator → Bool) : GetOutcome :=
  if mc.auth_method = some "oauth" then
    match auth1 with
    | some a =>
        if itv a then
          finishGet mc auth1 ha ac log1
        else
          let sel := select_core mc env o
          match sel.result with
          | Except.error e =>
              { _authenticator := auth1, http_auth := sel.http_auth,
                aws_conn := mergeConn ac sel.aws_conn, log := log1 ++ sel.log,
                result := Except.error e }
          | Except.ok r =>
              finishGet mc r sel.http_auth (mergeConn ac sel.aws_conn) (log1 ++ sel.log)
    | none =>
        { _authenticator := auth1, http_auth := ha, aws_conn := ac, log := log1,
          result := Except.error
            (PyError.attributeError "NoneType object has no attribute is_token_valid") }
  else
    finishGet mc auth1 ha ac log1

/-- The body of `get_authenticator` after `my_config` has been resolved
(source lines 316-330): reads `auth_method` (default `None`), sets
`self.http_auth = None`, and when `self._authenticator` is falsy calls
`select_authenticator(self)`, substituting `APIAuthenticatorBase` when that
returned `None`; then runs the oauth-refresh and aws steps. -/
def get_core (mc : AuthConfig) (auth0 : Option Authenticator) (env : AwsEnv)
    (o : ProfileOracle) (itv : Authenticator → Bool) : GetOutcome :=
  match auth0 with
  | none =>
    let sel := select_core mc env o
    match sel.result with
    | Except.error e =>
        { _authenticator := none, http_auth := sel.http_auth, aws_conn := sel.aws_conn,
          log := sel.log, result := Except.error e }
    | Except.ok r =>
        let a1 :=
          match r with
          | some a => a
          | none => Authenticator.base
        get_core_post mc (some a1) sel.http_auth sel.aws_conn sel.log env o itv
  | some _ => get_core_post mc auth0 none none [] env o itv

/-- Embedding of `get_authenticator(self)`: resolves `my_config` the same way as
`select_authenticator`, runs the body, and applies its state effects to `self`. -/
def get_authenticator (s : SelfState) (env : AwsEnv) (o : ProfileOracle)
    (itv : Authenticator → Bool) :
    SelfState × List String × Except PyError (Option Authenticator) :=
  match resolveMyConfig s with
  | none => (s, [], Except.error (PyError.nameError "my_config"))
  | some mc =>
    let out := get_core mc s._authenticator env o itv
    ({ s with _authenticator := out._authenticator, http_auth := out.http_auth,
              aws_connection := mergeConn s.aws_connection out.aws_conn },
     out.log, out.result)

/-- An empty process environment (no AWS variables set). -/
def env0 : AwsEnv := {}

/-- A profile store with no profiles. -/
def oracle0 : ProfileOracle :=
  { region_name := fun _ => none, credentials := fun _ => none }

/-- An `is_token_valid` oracle that always reports the token expired. -/
def itvFalse : Authenticator → Bool := fun _ => false

/-- An `is_token_valid` oracle that always reports the token valid. -/
def itvTrue : Authenticator → Bool := fun _ => true

/-- A basic-auth configuration. -/
def basicCfg : AuthConfig :=
  { auth_method := some "basic", username := some "u", password := some "p" }

/-- A bearer-token configuration (used as a tap-level config in examples). -/
def bearerTapCfg : AuthConfig :=
  { auth_method := some "bearer_token", bearer_token := some "tap-token" }

/-- An oauth configuration. -/
def oauthCfg : AuthConfig :=
  { auth_method := some "oauth", access_token_url := some "https://example.com/token",
    scope := some "read", oauth_expiration_secs := some 3600 }

/-- An unspecified configuration: every key absent. -/
def emptyCfg : AuthConfig := {}

/-- An api-key configuration with no `api_keys` mapping. -/
def apiKeyEmptyCfg : AuthConfig := { auth_method := some "api_key" }

/-- An api-key configuration whose `api_keys` mapping has two entries. -/
def apiKeyTwoCfg : AuthConfig :=
  { auth_method := some "api_key",
    api_keys := some [("h1", "v1"), ("h2", "v2")] }

/-- A configuration whose `auth_method` is an unsupported value. -/
def pigeonCfg : AuthConfig := { auth_method := some "carrier_pigeon" }

/-- An AWS connection config carrying both an explicit key pair and a profile. -/
def awsBothCfg : AwsConfig :=
  { aws_profile := some "prof", aws_access_key_id := some "AKIA",
    aws_secret_access_key := some "SECRET", aws_region := some "us-east-1" }

/-- An empty AWS connection config. -/
def emptyAwsCfg : AwsConfig := {}

/-- A profile store in which every profile resolves. -/
def oracleProf : ProfileOracle :=
  { region_name := fun _ => some "eu-west-1",
    credentials := fun _ => some { access_key := "PK", secret_key := "PS", token := none } }

/-- A complete OAuth 1.0 credential configuration. -/
def oauth1FullCfg : AuthConfig :=
  { consumer_key := some "ck", consumer_secret := some "cs",
    access_token := some "atk", token_secret := some "ts" }

/-- An OAuth 1.0 credential configuration missing `token_secret`. -/
def oauth1MissingCfg : AuthConfig :=
  { consumer_key := some "ck", consumer_secret := some "cs",
    access_token := some "atk" }

/-- Modelled from the spec: the configuration resolution order the spec states
for this module — stream-level configuration if present, else top-level
configuration — to be compared with `resolveMyConfig`, which embeds the
source. -/
def resolveMyConfigSpec (s : SelfState) : Option AuthConfig :=
  match s._config with
  | some c => some c
  | none => s.config

theorem loopAssign_append (ks : List (String × String)) (p : String × String)
    (acc : Option (String × String)) : loopAssign (ks ++ [p]) acc = some p := by
  induction ks generalizing acc with
  | nil => rfl
  | cons q rest ih => simpa [loopAssign] using ih (some q)

/-- C1: for every configuration whose `auth_method` is a non-empty value outside
{api_key, basic, oauth, bearer_token, aws, no_auth}, `select_authenticator`
logs one descriptive error message (naming the offending value and the list of
supported values) and raises `ValueError` with that same message, so it never
returns an authenticator. -/
theorem select_authenticator_unknown_method
    (tap : AuthConfig) (x : Option AuthConfig) (a ha : Option Authenticator)
    (ac : Option AWSConnectClient) (env : AwsEnv) (o : ProfileOracle) (m : String)
    (hm : tap.auth_method = some m) (hne : m ≠ "")
    (h1 : m ≠ "api_key") (h2 : m ≠ "basic") (h3 : m ≠ "oauth")
    (h4 : m ≠ "bearer_token") (h5 : m ≠ "aws") (h6 : m ≠ "no_auth") :
    (select_authenticator ⟨some tap, x, a, ha, ac⟩ env o).2 =
      (["Unknown authentication method " ++ m ++
          ". Use api_key, basic, oauth, bearer_token, or aws."],
       Except.error (PyError.valueError ("Unknown authentication method " ++ m ++
          ". Use api_key, basic, oauth, bearer_token, or aws."))) := by
  simp [select_authenticator, resolveMyConfig, select_core, hm, h1, h2, h3, h4, h5, h6]

theorem select_authenticator_unknown_method_witness :
    (select_authenticator ⟨some pigeonCfg, none, none, none, none⟩ env0 oracle0).2 =
      (["Unknown authentication method carrier_pigeon. Use api_key, basic, oauth, bearer_token, or aws."],
       Except.error (PyError.valueError
         "Unknown authentication method carrier_pigeon. Use api_key, basic, oauth, bearer_token, or aws.")) :=
  select_authenticator_unknown_method _ none none none none env0 oracle0
    "carrier_pigeon" rfl (by decide) (by decide) (by decide) (by decide) (by decide)
    (by decide) (by decide)

/-- C2: for every configuration with no `auth_method` key, `select_authenticator`
does NOT behave as a no-op: the default `""` falls through every supported
branch into the trailing `elif auth_method != "no_auth"` arm, which logs and
raises `ValueError` — contradicting the function docstring, which promises that
with no `auth_method` the tap proceeds without authentication and returns
`None`. -/
theorem select_authenticator_absent_method_raises
    (tap : AuthConfig) (x : Option AuthConfig) (a ha : Option Authenticator)
    (ac : Option AWSConnectClient) (env : AwsEnv) (o : ProfileOracle)
    (hm : tap.auth_method = none) :
    (select_authenticator ⟨some tap, x, a, ha, ac⟩ env o).2 =
      (["Unknown authentication method . Use api_key, basic, oauth, bearer_token, or aws."],
       Except.error (PyError.valueError
         "Unknown authentication method . Use api_key, basic, oauth, bearer_token, or aws.")) := by
  simp [select_authenticator, resolveMyConfig, select_core, hm]

theorem select_authenticator_absent_method_raises_witness :
    (select_authenticator ⟨some emptyCfg, none, none, none, none⟩ env0 oracle0).2 =
      (["Unknown authentication method . Use api_key, basic, oauth, bearer_token, or aws."],
       Except.error (PyError.valueError
         "Unknown authentication method . Use api_key, basic, oauth, bearer_token, or aws.")) :=
  select_authenticator_absent_method_raises emptyCfg none none none none env0 oracle0 rfl

/-- C8: for every configuration with `auth_method = "oauth"`,
`select_authenticator` raises `TypeError`: the branch calls
`ConfigurableOAuthAuthenticator(stream=..., auth_endpoint=..., oauth_scopes=...,
default_expiration=..., oauth_headers=...)`, but the class defined in this file
is an OAuth 1.0 authenticator whose `__init__` accepts only a `config` dict, so
no OAuth2 token-manager authenticator is ever constructed. -/
theorem select_authenticator_oauth_raises
    (tap : AuthConfig) (x : Option AuthConfig) (a ha : Option Authenticator)
    (ac : Option AWSConnectClient) (env : AwsEnv) (o : ProfileOracle)
    (hm : tap.auth_method = some "oauth") :
    (select_authenticator ⟨some tap, x, a, ha, ac⟩ env o).2 =
      ([], Except.error (PyError.typeError
        "__init__() got an unexpected keyword argument stream")) := by
  simp [select_authenticator, resolveMyConfig, select_core, hm]
  rfl

theorem select_authenticator_oauth_raises_witness :
    (select_authenticator ⟨some oauthCfg, none, none, none, none⟩ env0 oracle0).2 =
      ([], Except.error (PyError.typeError
        "__init__() got an unexpected keyword argument stream")) :=
  select_authenticator_oauth_raises oauthCfg none none none none env0 oracle0 rfl

/-- C10: for every configuration with `auth_method = "api_key"`, when `api_keys`
is absent or empty the `for` loop never runs and the subsequent
`APIKeyAuthenticator(stream=self, key=key, value=value)` call reads the unbound
local `key`, raising `UnboundLocalError`; when `api_keys` is non-empty the
last-iterated entry is the one used. -/
theorem select_authenticator_api_key_branch
    (tap : AuthConfig) (x : Option AuthConfig) (a ha : Option Authenticator)
    (ac : Option AWSConnectClient) (env : AwsEnv) (o : ProfileOracle)
    (hm : tap.auth_method = some "api_key") :
    ((tap.api_keys = none ∨ tap.api_keys = some []) →
      (select_authenticator ⟨some tap, x, a, ha, ac⟩ env o).2 =
        ([], Except.error (PyError.unboundLocalError "key"))) ∧
    (∀ ks k v, tap.api_keys = some (ks ++ [(k, v)]) →
      (select_authenticator ⟨some tap, x, a, ha, ac⟩ env o).2 =
        ([], Except.ok (some (Authenticator.apiKey k v)))) := by
  constructor
  · rintro (h | h) <;>
      simp [select_authenticator, resolveMyConfig, select_core, hm, h]
  · rintro ks k v h
    simp [select_authenticator, resolveMyConfig, select_core, hm, h, loopAssign_append]

theorem select_authenticator_api_key_branch_witness :
    (select_authenticator ⟨some apiKeyEmptyCfg, none, none, none, none⟩ env0 oracle0).2 =
      ([], Except.error (PyError.unboundLocalError "key")) ∧
    (select_authenticator ⟨some apiKeyTwoCfg, none, none, none, none⟩ env0 oracle0).2 =
      ([], Except.ok (some (Authenticator.apiKey "h2" "v2"))) :=
  ⟨(select_authenticator_api_key_branch apiKeyEmptyCfg none none none none env0 oracle0
      rfl).1 (Or.inl rfl),
   (select_authenticator_api_key_branch apiKeyTwoCfg none none none none env0 oracle0
      rfl).2 [("h1", "v1")] "h2" "v2" rfl⟩

theorem oauthCallError_eq :
    oauthCallError = PyError.typeError "__init__() got an unexpected keyword argument stream" :=
  rfl

/-- C5: when both an explicit access-key/secret pair and a profile are
resolvable (from config or environment), the AWS client is built from the
explicit pair: the constructed session is the explicit-keys session, and the
whole construction is independent of the external profile store, so
profile-based session construction is never attempted. -/
theorem aws_explicit_pair_precedence (cfg : AwsConfig) (env : AwsEnv)
    (o1 o2 : ProfileOracle)
    (hk : truthy (pyOr cfg.aws_access_key_id env.AWS_ACCESS_KEY_ID) = true)
    (hs : truthy (pyOr cfg.aws_secret_access_key env.AWS_SECRET_ACCESS_KEY) = true)
    (hp : truthy (pyOr cfg.aws_profile env.AWS_PROFILE) = true) :
    awsConnectClientInit (some cfg) true env o1 =
      awsConnectClientInit (some cfg) true env o2 ∧
    (awsConnectClientInit (some cfg) true env o1).toOption.map
        (fun c => c.aws_session) =
      some (some (AwsSession.explicitKeys
        (pyOr cfg.aws_access_key_id env.AWS_ACCESS_KEY_ID)
        (pyOr cfg.aws_secret_access_key env.AWS_SECRET_ACCESS_KEY)
        (pyOr cfg.aws_region env.AWS_REGION)
        (pyOr cfg.aws_session_token env.AWS_SESSION_TOKEN))) := by
  constructor
  · simp [awsConnectClientInit, hk, hs, sessionRegionName, sessionGetCredentials]
  · simp only [awsConnectClientInit, hk, hs, Bool.and_self, if_true,
      sessionRegionName, sessionGetCredentials]
    rfl

theorem aws_explicit_pair_precedence_witness :
    awsConnectClientInit (some awsBothCfg) true env0 oracle0 =
      awsConnectClientInit (some awsBothCfg) true env0 oracleProf ∧
    (awsConnectClientInit (some awsBothCfg) true env0 oracle0).toOption.map
        (fun c => c.aws_session) =
      some (some (AwsSession.explicitKeys (some "AKIA") (some "SECRET")
        (some "us-east-1") none)) :=
  ⟨(aws_explicit_pair_precedence awsBothCfg env0 oracle0 oracleProf
      (by decide) (by decide) (by decide)).1,
   (aws_explicit_pair_precedence awsBothCfg env0 oracle0 oracleProf
      (by decide) (by decide) (by decide)).2⟩

/-- C6: when neither an explicit access-key/secret pair nor a profile is
resolvable from config or environment, `AWSConnectClient` construction
succeeds, the session and credentials are absent, the stored signer is `None`,
and `get_awsauth` returns `None` rather than failing. -/
theorem aws_no_credentials_null_signer (cfg : AwsConfig) (env : AwsEnv)
    (o : ProfileOracle)
    (hk : (truthy (pyOr cfg.aws_access_key_id env.AWS_ACCESS_KEY_ID) &&
           truthy (pyOr cfg.aws_secret_access_key env.AWS_SECRET_ACCESS_KEY)) = false)
    (hp : truthy (pyOr cfg.aws_profile env.AWS_PROFILE) = false) :
    (awsConnectClientInit (some cfg) true env o).toOption.map
        (fun c => (c.aws_session, c.credentials, c.aws_auth, c.get_awsauth)) =
      some (none, none, none, none) := by
  simp only [awsConnectClientInit, hk, hp, Bool.false_eq_true, if_false]
  rfl

theorem aws_no_credentials_null_signer_witness :
    (awsConnectClientInit (some emptyAwsCfg) true env0 oracle0).toOption.map
        (fun c => (c.aws_session, c.credentials, c.aws_auth, c.get_awsauth)) =
      some (none, none, none, none) :=
  aws_no_credentials_null_signer emptyAwsCfg env0 oracle0 (by decide) (by decide)

/-- C7: constructing either OAuth 1.0 authenticator with any of `consumer_key`,
`consumer_secret`, `access_token`, `token_secret` missing or empty raises
`ValueError` at construction time; with all four present (non-empty) the
construction succeeds, and the signing hook `authenticate_request` never
validates anything — it just attaches the signer built at construction — so the
failure is never deferred to signing time. -/
theorem oauth1_construction_validation (cfg : AuthConfig) :
    (¬(truthy cfg.consumer_key = true ∧ truthy cfg.consumer_secret = true ∧
        truthy cfg.access_token = true ∧ truthy cfg.token_secret = true) →
      ConfigurableOAuthAuthenticator.init cfg =
        Except.error (PyError.valueError "As credenciais OAuth 1.0 estão incompletas.") ∧
      OAuth1Authenticator.init cfg =
        Except.error (PyError.valueError
          "Todos os campos de autenticação OAuth 1.0 são obrigatórios.")) ∧
    ((truthy cfg.consumer_key = true ∧ truthy cfg.consumer_secret = true ∧
        truthy cfg.access_token = true ∧ truthy cfg.token_secret = true) →
      (∃ a, ConfigurableOAuthAuthenticator.init cfg = Except.ok a ∧
        ∀ r, (ConfigurableOAuthAuthenticator.authenticate_request a r).auth = some a.auth) ∧
      (∃ b, OAuth1Authenticator.init cfg = Except.ok b ∧
        ∀ r, (OAuth1Authenticator.authenticate_request b r).auth = some b.auth)) := by
  constructor
  · intro h
    have hb : (truthy cfg.consumer_key && truthy cfg.consumer_secret &&
        truthy cfg.access_token && truthy cfg.token_secret) = false := by
      simpa [Bool.and_eq_true, and_assoc] using h
    exact ⟨by simp [ConfigurableOAuthAuthenticator.init, hb],
           by simp [OAuth1Authenticator.init, hb]⟩
  · rintro ⟨h1, h2, h3, h4⟩
    have hb : (truthy cfg.consumer_key && truthy cfg.consumer_secret &&
        truthy cfg.access_token && truthy cfg.token_secret) = true := by
      simp [h1, h2, h3, h4]
    exact ⟨⟨{ consumer_key := cfg.consumer_key, consumer_secret := cfg.consumer_secret,
              access_token := cfg.access_token, token_secret := cfg.token_secret,
              auth := { client_key := cfg.consumer_key, client_secret := cfg.consumer_secret,
                        resource_owner_key := cfg.access_token,
                        resource_owner_secret := cfg.token_secret } },
            by simp [ConfigurableOAuthAuthenticator.init, hb], fun r => rfl⟩,
           ⟨{ consumer_key := cfg.consumer_key, consumer_secret := cfg.consumer_secret,
              access_token := cfg.access_token, token_secret := cfg.token_secret,
              auth := { client_key := cfg.consumer_key, client_secret := cfg.consumer_secret,
                        resource_owner_key := cfg.access_token,
                        resource_owner_secret := cfg.token_secret } },
            by simp [OAuth1Authenticator.init, hb], fun r => rfl⟩⟩

theorem oauth1_construction_validation_witness :
    ConfigurableOAuthAuthenticator.init oauth1MissingCfg =
      Except.error (PyError.valueError "As credenciais OAuth 1.0 estão incompletas.") ∧
    (∃ a, ConfigurableOAuthAuthenticator.init oauth1FullCfg = Except.ok a ∧
      ∀ r, (ConfigurableOAuthAuthenticator.authenticate_request a r).auth = some a.auth) :=
  ⟨((oauth1_construction_validation oauth1MissingCfg).1 (by decide)).1,
   ((oauth1_construction_validation oauth1FullCfg).2 (by decide)).1⟩

theorem finishGet_result (mc : AuthConfig) (auth1 ha : Option Authenticator)
    (ac : Option AWSConnectClient) (log : List String) :
    (finishGet mc auth1 ha ac log).result = Except.ok none := by
  unfold finishGet
  split <;> rfl

theorem finishGet_authenticator (mc : AuthConfig) (auth1 ha : Option Authenticator)
    (ac : Option AWSConnectClient) (log : List String) :
    (finishGet mc auth1 ha ac log)._authenticator = auth1 := by
  unfold finishGet
  split <;> rfl

theorem get_core_post_not_oauth (mc : AuthConfig) (auth1 ha : Option Authenticator)
    (ac : Option AWSConnectClient) (log1 : List String) (env : AwsEnv)
    (o : ProfileOracle) (itv : Authenticator → Bool)
    (hno : mc.auth_method ≠ some "oauth") :
    get_core_post mc auth1 ha ac log1 env o itv = finishGet mc auth1 ha ac log1 := by
  unfold get_core_post
  rw [if_neg hno]

theorem get_core_post_result_ok (mc : AuthConfig) (auth1 ha : Option Authenticator)
    (ac : Option AWSConnectClient) (log1 : List String) (env : AwsEnv)
    (o : ProfileOracle) (itv : Authenticator → Bool) (r : Option Authenticator)
    (h : (get_core_post mc auth1 ha ac log1 env o itv).result = Except.ok r) :
    r = none := by
  unfold get_core_post finishGet at h
  dsimp only at h
  cases hs : (select_core mc env o).result <;> rw [hs] at h
  all_goals repeat' split at h
  all_goals simp_all

theorem get_core_result_ok (mc : AuthConfig) (auth0 : Option Authenticator)
    (env : AwsEnv) (o : ProfileOracle) (itv : Authenticator → Bool)
    (r : Option Authenticator)
    (h : (get_core mc auth0 env o itv).result = Except.ok r) : r = none := by
  unfold get_core at h
  cases auth0 with
  | none =>
    dsimp only at h
    cases hs : (select_core mc env o).result with
    | error e => rw [hs] at h; simp at h
    | ok r0 =>
      rw [hs] at h
      exact get_core_post_result_ok mc _ _ _ _ env o itv r h
  | some a => exact get_core_post_result_ok mc _ _ _ _ env o itv r h

theorem select_core_oauth (mc : AuthConfig) (env : AwsEnv) (o : ProfileOracle)
    (hm : mc.auth_method = some "oauth") :
    select_core mc env o =
      { http_auth := none, aws_conn := none, log := [],
        result := Except.error oauthCallError } := by
  simp [select_core, hm]

/-- C3 (amended): `get_authenticator` returns `None`, never a handle; the
handle lives in `self._authenticator`: when the cache is empty it invokes
`select_authenticator` and stores its result (substituting the default
`APIAuthenticatorBase` when that result was `None`), and for non-oauth methods
a populated cache is kept unchanged and the call returns `None`. -/
theorem get_authenticator_memoizes (tap : AuthConfig) (cached : Option Authenticator)
    (env : AwsEnv) (o : ProfileOracle) (itv : Authenticator → Bool)
    (hno : tap.auth_method ≠ some "oauth") :
    (∀ st lg r, get_authenticator ⟨some tap, none, cached, none, none⟩ env o itv =
        (st, lg, Except.ok r) → r = none) ∧
    (cached = none → ∀ r0,
      (select_authenticator ⟨some tap, none, none, none, none⟩ env o).2.2 =
        Except.ok r0 →
      (get_authenticator ⟨some tap, none, none, none, none⟩ env o itv).1._authenticator =
        some (r0.getD Authenticator.base)) ∧
    (∀ b, cached = some b →
      (get_authenticator ⟨some tap, none, cached, none, none⟩ env o itv).1._authenticator =
          some b ∧
      (get_authenticator ⟨some tap, none, cached, none, none⟩ env o itv).2.2 =
          Except.ok none) := by
  refine ⟨?_, ?_, ?_⟩
  · intro st lg r h
    have h2 : (get_core tap cached env o itv).result = Except.ok r :=
      congrArg (fun t => t.2.2) h
    exact get_core_result_ok tap cached env o itv r h2
  · intro hc r0 hsel
    subst hc
    have hs : (select_core tap env o).result = Except.ok r0 := hsel
    show (get_core tap none env o itv)._authenticator = some (r0.getD Authenticator.base)
    unfold get_core
    dsimp only
    rw [hs]
    dsimp only
    rw [get_core_post_not_oauth tap _ _ _ _ env o itv hno, finishGet_authenticator]
    cases r0 <;> rfl
  · intro b hc
    subst hc
    constructor
    · show (get_core tap (some b) env o itv)._authenticator = some b
      unfold get_core
      rw [get_core_post_not_oauth tap _ _ _ _ env o itv hno, finishGet_authenticator]
    · show (get_core tap (some b) env o itv).result = Except.ok none
      unfold get_core
      rw [get_core_post_not_oauth tap _ _ _ _ env o itv hno, finishGet_result]

theorem get_authenticator_memoizes_witness :
    (get_authenticator ⟨some basicCfg, none, none, none, none⟩ env0 oracle0
        itvFalse).1._authenticator = some (Authenticator.basic "u" "p") ∧
    (get_authenticator ⟨some basicCfg, none, some Authenticator.base, none, none⟩
        env0 oracle0 itvFalse).1._authenticator = some Authenticator.base :=
  ⟨(get_authenticator_memoizes basicCfg none env0 oracle0 itvFalse (by decide)).2.1
      rfl (some (Authenticator.basic "u" "p")) rfl,
   ((get_authenticator_memoizes basicCfg (some Authenticator.base) env0 oracle0
      itvFalse (by decide)).2.2 Authenticator.base rfl).1⟩

/-- C3 (counterexample to the claim as stated): on a plain basic-auth
configuration `get_authenticator` constructs and caches the basic
authenticator in `self._authenticator` but RETURNS `None` — its body has no
`return` statement (and its docstring says `Returns: None`) — so it does not
return an authenticator handle. -/
theorem get_authenticator_returns_none_counterexample :
    (get_authenticator ⟨some basicCfg, none, none, none, none⟩ env0 oracle0
        itvFalse).2.2 = Except.ok none ∧
    (get_authenticator ⟨some basicCfg, none, none, none, none⟩ env0 oracle0
        itvFalse).1._authenticator = some (Authenticator.basic "u" "p") :=
  ⟨rfl, rfl⟩

/-- C4: for a call with `auth_method = "oauth"` and a populated cache, the code
does re-invoke `select_authenticator` when `is_token_valid()` is false, but
that invocation raises `TypeError` (the `oauth` branch calls the OAuth 1.0
`ConfigurableOAuthAuthenticator` with keyword arguments its `__init__` does not
accept), so the cached authenticator is never replaced; when `is_token_valid()`
is true the cached instance is kept and the call returns normally. -/
theorem get_authenticator_oauth_refresh (tap : AuthConfig) (a : Authenticator)
    (env : AwsEnv) (o : ProfileOracle) (itv : Authenticator → Bool)
    (hm : tap.auth_method = some "oauth") :
    (itv a = false →
      (get_authenticator ⟨some tap, none, some a, none, none⟩ env o itv).2.2 =
        Except.error (PyError.typeError
          "__init__() got an unexpected keyword argument stream") ∧
      (get_authenticator ⟨some tap, none, some a, none, none⟩ env o
          itv).1._authenticator = some a) ∧
    (itv a = true →
      (get_authenticator ⟨some tap, none, some a, none, none⟩ env o itv).2.2 =
        Except.ok none ∧
      (get_authenticator ⟨some tap, none, some a, none, none⟩ env o
          itv).1._authenticator = some a) := by
  have hsel := select_core_oauth tap env o hm
  refine ⟨fun hv => ⟨?_, ?_⟩, fun hv => ⟨?_, ?_⟩⟩ <;>
    simp [get_authenticator, resolveMyConfig, get_core, get_core_post, hm, hv, hsel,
      oauthCallError_eq, finishGet, mergeConn]

theorem get_authenticator_oauth_refresh_witness :
    (get_authenticator ⟨some oauthCfg, none, some Authenticator.base, none, none⟩
        env0 oracle0 itvFalse).2.2 =
      Except.error (PyError.typeError
        "__init__() got an unexpected keyword argument stream") ∧
    (get_authenticator ⟨some oauthCfg, none, some Authenticator.base, none, none⟩
        env0 oracle0 itvTrue).1._authenticator = some Authenticator.base :=
  ⟨((get_authenticator_oauth_refresh oauthCfg Authenticator.base env0 oracle0
      itvFalse rfl).1 rfl).1,
   ((get_authenticator_oauth_refresh oauthCfg Authenticator.base env0 oracle0
      itvTrue rfl).2 rfl).2⟩

/-- C9 (amended): in both `select_authenticator` and `get_authenticator` the
configuration is resolved TOP-LEVEL-FIRST: when `self.config` is truthy the
behavior (log and returned/raised value) is independent of the stream-level
`self._config`, and only when `self.config` is falsy is the stream-level
config used (behaving exactly as that config would at top level). -/
theorem config_resolution_tap_precedence (tap strm : AuthConfig)
    (x : Option AuthConfig) (a ha : Option Authenticator)
    (ac : Option AWSConnectClient) (env : AwsEnv) (o : ProfileOracle)
    (itv : Authenticator → Bool) :
    (select_authenticator ⟨some tap, x, a, ha, ac⟩ env o).2 =
      (select_authenticator ⟨some tap, none, a, ha, ac⟩ env o).2 ∧
    (get_authenticator ⟨some tap, x, a, ha, ac⟩ env o itv).2 =
      (get_authenticator ⟨some tap, none, a, ha, ac⟩ env o itv).2 ∧
    (select_authenticator ⟨none, some strm, a, ha, ac⟩ env o).2 =
      (select_authenticator ⟨some strm, none, a, ha, ac⟩ env o).2 ∧
    (get_authenticator ⟨none, some strm, a, ha, ac⟩ env o itv).2 =
      (get_authenticator ⟨some strm, none, a, ha, ac⟩ env o itv).2 :=
  ⟨rfl, rfl, rfl, rfl⟩

/-- C9 (counterexample to the claim as stated): with both configs present the
code resolves `self.config` (the tap-level config) FIRST: the bearer-token
tap config wins over the basic-auth stream config, while the spec-modelled
stream-first resolution (`resolveMyConfigSpec`) would pick the basic-auth
stream config, whose dispatch result is different. -/
theorem config_precedence_counterexample :
    resolveMyConfigSpec ⟨some bearerTapCfg, some basicCfg, none, none, none⟩ =
      some basicCfg ∧
    (select_authenticator ⟨some bearerTapCfg, some basicCfg, none, none, none⟩
        env0 oracle0).2.2 = Except.ok (some (Authenticator.bearer "tap-token")) ∧
    (select_authenticator ⟨some basicCfg, none, none, none, none⟩
        env0 oracle0).2.2 = Except.ok (some (Authenticator.basic "u" "p")) ∧
    (get_authenticator ⟨some bearerTapCfg, some basicCfg, none, none, none⟩
        env0 oracle0 itvFalse).1._authenticator =
      some (Authenticator.bearer "tap-token") :=
  ⟨rfl, rfl, rfl, rfl⟩

end TapRestApiMsdk
